import Mathlib

/-!
Shallow embedding of the ua-t-sf repository (src/universalAnalytics.py).

The program pulls a Google Universal Analytics report day by day, pages
through each day, reshapes every page into a Snowpark dataframe, casts the
metric columns, appends each page to a Snowflake table, and finally appends
one log record for the whole run.

Modelling conventions:
  * A Snowpark dataframe is a schema (column names) plus row-major data.
  * Cell values carry their source string symbolically; a cast to the
    Snowflake double type keeps the string (float semantics are not needed
    by any claim, only the resulting column type).
  * Snowflake folds an unquoted plain identifier to upper case; two column
    names denote the same column when their folded forms agree.
  * A datetime value is represented by its proleptic-Gregorian day number,
    which orders exactly as Python datetime objects do; strptime/strftime
    are the conversions between day numbers and formatted strings.
  * The remote service is an oracle: a function from the fetch request that
    the code builds to the decoded response body (reports[0]).
  * Exceptions of the Python program (strptime ValueError, failing casts,
    the unbound local variable in the logger) are Except errors; the inner
    pagination loop, a while True in the source, takes a fuel argument and
    reports exhaustion as an error.
  * The run returns the produced value together with the observable side
    effects: the ordered trace of fetches and table appends, and the log
    record appended at the end.
-/

deriving instance DecidableEq for Except

namespace UA

/-- One cell of a Snowpark dataframe. Report values arrive as strings; the
double constructor records a cast to the Snowflake double type keeping the
source text, date is a parsed calendar date, timestamp a cast timestamp. -/
inductive CellValue where
  | str : String → CellValue
  | int : Nat → CellValue
  | double : String → CellValue
  | date : Nat → Nat → Nat → CellValue
  | timestamp : String → CellValue
deriving DecidableEq, Repr

/-- A Snowpark dataframe: column names plus row-major data. -/
structure DataFrame where
  schema : List String
  data : List (List CellValue)
deriving DecidableEq, Repr

/-- Characters allowed in a plain (unquoted) Snowflake identifier. -/
def isPlainIdentChar (c : Char) : Bool :=
  c.isAlpha || c.isDigit || c = '_' || c = '$'

/-- A name that Snowflake treats as an unquoted identifier. -/
def isPlainIdent (s : String) : Bool :=
  !s.isEmpty && s.toList.all isPlainIdentChar && !(s.toList.headD '_').isDigit

/-- Snowflake folds an unquoted identifier to upper case; any other name
(for example the ga:date family, which contains a colon) is kept as is. -/
def foldIdent (s : String) : String :=
  if isPlainIdent s then String.mk (s.toList.map Char.toUpper) else s

/-- Two column names denote the same column iff their folded forms agree. -/
def identMatches (a b : String) : Bool :=
  foldIdent a = foldIdent b

/-- session.createDataFrame(data, schema): Snowpark rejects rows whose
length does not match the schema. -/
def createDataFrame (data : List (List CellValue)) (schema : List String) :
    Option DataFrame :=
  if data.all (fun row => row.length == schema.length) then
    some { schema := schema, data := data }
  else none

/-- Index of the column a name resolves to in a dataframe. -/
def findCol (df : DataFrame) (name : String) : Option Nat :=
  df.schema.findIdx? (fun s => identMatches name s)

/-- Apply a cell transformation to column i of every row; a row without
that cell or a failing transformation fails the whole batch. -/
def setCells (i : Nat) (f : CellValue → Option CellValue) :
    List (List CellValue) → Option (List (List CellValue))
  | [] => some []
  | row :: rest =>
    match row.get? i with
    | none => none
    | some c =>
      match f c with
      | none => none
      | some c2 =>
        match setCells i f rest with
        | none => none
        | some rs => some (row.set i c2 :: rs)

/-- df.withColumn(name, op(df[name])) for an operation on an existing
column; referencing a column that does not exist fails. -/
def withColumnMap (df : DataFrame) (name : String)
    (f : CellValue → Option CellValue) : Option DataFrame :=
  match findCol df name with
  | none => none
  | some i =>
    match setCells i f df.data with
    | none => none
    | some d => some { df with data := d }

/-- df.withColumn(name, lit v): replace the column when it exists,
otherwise append it on the right. -/
def withColumnLit (df : DataFrame) (name : String) (v : CellValue) :
    DataFrame :=
  match findCol df name with
  | some i => { df with data := df.data.map (fun row => row.set i v) }
  | none =>
    { schema := df.schema ++ [name],
      data := df.data.map (fun row => row ++ [v]) }

/-- Column.cast(double): strings and doubles cast, other types fail. -/
def castDouble : CellValue → Option CellValue
  | .str s => some (.double s)
  | .double s => some (.double s)
  | _ => none

/-- Column.cast(timestamp). -/
def castTimestampCell : CellValue → Option CellValue
  | .str s => some (.timestamp s)
  | .timestamp s => some (.timestamp s)
  | _ => none

/-- Numeric value of a digit string. -/
def natOfDigits (cs : List Char) : Nat :=
  cs.foldl (fun n c => n * 10 + (c.toNat - 48)) 0

def isLeap (y : Nat) : Bool :=
  (y % 4 == 0 && y % 100 != 0) || y % 400 == 0

def daysInMonth (y m : Nat) : Nat :=
  if m == 2 then (if isLeap y then 29 else 28)
  else if m == 4 || m == 6 || m == 9 || m == 11 then 30
  else 31

def validDate (y m d : Nat) : Bool :=
  1 ≤ y && 1 ≤ m && m ≤ 12 && 1 ≤ d && d ≤ daysInMonth y m

/-- Parse an 8 digit YYYYMMDD string (the Snowflake TO_DATE format used on
the ga:date column), validating the calendar date. -/
def parseYYYYMMDD (s : String) : Option (Nat × Nat × Nat) :=
  let cs := s.toList
  if cs.length == 8 && cs.all Char.isDigit then
    let y := natOfDigits (cs.take 4)
    let m := natOfDigits ((cs.drop 4).take 2)
    let d := natOfDigits (cs.drop 6)
    if validDate y m d then some (y, m, d) else none
  else none

/-- Parse a YYYY-MM-DD string (strptime format of the driver and the
TO_DATE format used on the log date columns). -/
def parseDateDashed (s : String) : Option (Nat × Nat × Nat) :=
  let cs := s.toList
  if cs.length == 10 && (cs.take 4).all Char.isDigit
      && cs.get? 4 == some '-' && ((cs.drop 5).take 2).all Char.isDigit
      && cs.get? 7 == some '-' && (cs.drop 8).all Char.isDigit then
    let y := natOfDigits (cs.take 4)
    let m := natOfDigits ((cs.drop 5).take 2)
    let d := natOfDigits (cs.drop 8)
    if validDate y m d then some (y, m, d) else none
  else none

/-- TO_DATE(col, YYYYMMDD) on one cell. -/
def toDateYYYYMMDD : CellValue → Option CellValue
  | .str s => (parseYYYYMMDD s).map (fun p => .date p.1 p.2.1 p.2.2)
  | .date y m d => some (.date y m d)
  | _ => none

/-- TO_DATE(col, YYYY-MM-DD) on one cell. -/
def toDateDashedCell : CellValue → Option CellValue
  | .str s => (parseDateDashed s).map (fun p => .date p.1 p.2.1 p.2.2)
  | .date y m d => some (.date y m d)
  | _ => none

/-- Day number of a civil date (days since 0000-03-01 of the proleptic
Gregorian calendar); valid dates compare chronologically through it, which
is how Python datetime objects order, and adding one day adds one. -/
def dayNumber (y m d : Nat) : Nat :=
  let yy := if m ≤ 2 then y - 1 else y
  let era := yy / 400
  let yoe := yy % 400
  let mp := (m + 9) % 12
  let doy := (153 * mp + 2) / 5 + (d - 1)
  let doe := yoe * 365 + yoe / 4 - yoe / 100 + doy
  era * 146097 + doe

/-- Civil date of a day number; inverse of dayNumber on valid dates. -/
def civilFromDays (z : Nat) : Nat × Nat × Nat :=
  let era := z / 146097
  let doe := z % 146097
  let yoe := (doe - doe / 1460 + doe / 36524 - doe / 146096) / 365
  let yy := yoe + era * 400
  let doy := doe - (365 * yoe + yoe / 4 - yoe / 100)
  let mp := (5 * doy + 2) / 153
  let d := doy - (153 * mp + 2) / 5 + 1
  let m := if mp < 10 then mp + 3 else mp - 9
  (if m ≤ 2 then yy + 1 else yy, m, d)

def pad2 (n : Nat) : String :=
  if n < 10 then "0" ++ toString n else toString n

def pad4 (n : Nat) : String :=
  if n < 10 then "000" ++ toString n
  else if n < 100 then "00" ++ toString n
  else if n < 1000 then "0" ++ toString n
  else toString n

/-- strftime with the %Y-%m-%d format. -/
def formatDate (ymd : Nat × Nat × Nat) : String :=
  pad4 ymd.1 ++ "-" ++ pad2 ymd.2.1 ++ "-" ++ pad2 ymd.2.2

/-- One entry of columnHeader.metricHeader.metricHeaderEntries. -/
structure MetricHeaderEntry where
  name : String
  type : String
deriving DecidableEq, Repr

/-- One entry of a report row metrics list (a dict with a values list). -/
structure MetricValues where
  values : List String
deriving DecidableEq, Repr

/-- One report row: parallel dimension values and metric value groups. -/
structure ReportRow where
  dimensions : List String
  metrics : List MetricValues
deriving DecidableEq, Repr

structure ColumnHeader where
  dimensions : List String
  metricHeaderEntries : List MetricHeaderEntry
deriving DecidableEq, Repr

/-- Decoded response body reports[0]. rows is the optional data.rows entry;
rowCount is the row count data.rowCount reported by the remote service,
present in real responses but never read by the code. -/
structure Report where
  columnHeader : ColumnHeader
  rows : Option (List ReportRow)
  rowCount : Option Nat
  nextPageToken : Option String
deriving DecidableEq, Repr

/-- The body built for analytics.reports().batchGet (reportRequests[0]).
The metric expression dicts and dimension name dicts are represented by
the underlying strings. -/
structure FetchRequest where
  viewId : String
  startDate : String
  endDate : String
  metrics : List String
  dimensions : List String
  pageSize : Nat
  pageToken : Option String
deriving DecidableEq, Repr

/-- The remote reporting service: one response per request. -/
abbrev Oracle := FetchRequest → Report

/-- Observable side effects of a run, in order: remote fetches and
warehouse appends. -/
inductive Event where
  | fetch : FetchRequest → Event
  | append : String → String → String → DataFrame → Event
deriving DecidableEq, Repr

/-- responseToDataframe, src/universalAnalytics.py lines 23 to 49: column
names are taken from the response header (dimensions, then metric names),
the data rows are each row dimension values followed by all metric values
flattened in order. The KeyError on a response without rows and the
createDataFrame row length check are both modelled as none. The column
set comes only from the response; the function has no caller-supplied
dimension or metric arguments. -/
def responseToDataframe (response : Report) : Option DataFrame :=
  let dimensions := response.columnHeader.dimensions
  let metrics := response.columnHeader.metricHeaderEntries.map
    (fun entry => entry.name)
  match response.rows with
  | none => none
  | some rows =>
    let data := rows.map (fun row =>
      (row.dimensions ++ (row.metrics.map (fun m => m.values)).flatten).map
        CellValue.str)
    createDataFrame data (dimensions ++ metrics)

/-- dataframeToSnowflake, lines 51 to 68: append the dataframe to the
destination table and return df.count(). The write side effect is returned
as an Event; the caller threads it into the trace. -/
def dataframeToSnowflake (df : DataFrame)
    (database schema table : String) : Event × Nat :=
  (Event.append database schema table df, df.data.length)

/-- Lines 156 to 157: cast each column named in the dataTypes map to the
Snowflake double type, in key order. -/
def castMetrics (df : DataFrame) : List String → Option DataFrame
  | [] => some df
  | key :: keys =>
    match withColumnMap df key castDouble with
    | none => none
    | some df2 => castMetrics df2 keys

/-- Lines 150 to 165 for one data-bearing page: shape the response into a
dataframe, cast every metric column named in the header type map to
double, add the LOADTIMESTAMP column, parse the ga:date column with the
YYYYMMDD format, and cast LOADTIMESTAMP to a timestamp. The keys of the
Python dict comprehension are the header metric names, first occurrence
order. -/
def normalizePage (response : Report) (ts : String) : Option DataFrame :=
  match responseToDataframe response with
  | none => none
  | some dataframe =>
    let keys := (response.columnHeader.metricHeaderEntries.map
      (fun v => v.name)).eraseDups
    match castMetrics dataframe keys with
    | none => none
    | some df2 =>
      let df3 := withColumnLit df2 "LOADTIMESTAMP" (CellValue.str ts)
      match withColumnMap df3 "ga:date" toDateYYYYMMDD with
      | none => none
      | some df4 => withColumnMap df4 "LOADTIMESTAMP" castTimestampCell

/-- The local variables of getReportInSnowflake that live across loop
iterations, plus two pieces of instrumentation: the ordered event trace
and the count of completed outer-loop iterations. dataframe mirrors the
Python local of that name, unbound (none) until the first data page. -/
structure LoopState where
  pageToken : Option String
  total_rows : Nat
  api_calls_counter : Nat
  dataframe : Option DataFrame
  days : Nat
  trace : List Event
deriving DecidableEq, Repr

/-- Lines 120 to 122: page_token = None, total_rows = 0,
api_calls_counter = 0, nothing fetched yet. -/
def initState : LoopState :=
  { pageToken := none, total_rows := 0, api_calls_counter := 0,
    dataframe := none, days := 0, trace := [] }

/-- Failure modes of a run. valueError is a strptime failure on a
malformed date argument; sqlError is a failing cast or a reference to a
missing column; unboundLocal is line 202 reading the local dataframe when
no page ever assigned it; fuelExhausted reports that the inner while True
loop did not finish within the modelling fuel. -/
inductive RunError where
  | valueError
  | sqlError
  | unboundLocal
  | fuelExhausted
deriving DecidableEq, Repr

/-- The request body of lines 134 to 146. -/
def mkRequest (view_id : String) (mets dims : List String)
    (page_size : Nat) (current_start_date current_end_date : String)
    (page_token : Option String) : FetchRequest :=
  { viewId := view_id, startDate := current_start_date,
    endDate := current_end_date, metrics := mets, dimensions := dims,
    pageSize := page_size, pageToken := page_token }

/-- The inner while True loop, lines 133 to 180. Each pass fetches one
page with the current page token. A page with rows is shaped, normalized
and appended; total_rows grows by the count dataframeToSnowflake returned,
api_calls_counter by one; with a nextPageToken the loop continues holding
that token, otherwise it breaks. A page without rows breaks immediately.
Note that neither break resets pageToken. -/
def innerLoop (O : Oracle) (view_id : String) (mets dims : List String)
    (page_size : Nat) (current_start_date current_end_date : String)
    (database schema table ts : String) :
    Nat → LoopState → Except RunError LoopState
  | 0, _ => .error .fuelExhausted
  | fuel + 1, st =>
    let req := mkRequest view_id mets dims page_size current_start_date
      current_end_date st.pageToken
    let st1 : LoopState := { st with trace := st.trace ++ [Event.fetch req] }
    match (O req).rows with
    | some _ =>
      match normalizePage (O req) ts with
      | none => .error .sqlError
      | some dataframe =>
        let st2 : LoopState := { st1 with
          total_rows := st1.total_rows
            + (dataframeToSnowflake dataframe database schema table).2,
          api_calls_counter := st1.api_calls_counter + 1,
          dataframe := some dataframe,
          trace := st1.trace
            ++ [(dataframeToSnowflake dataframe database schema table).1] }
        match (O req).nextPageToken with
        | some t =>
          innerLoop O view_id mets dims page_size current_start_date
            current_end_date database schema table ts fuel
            { st2 with pageToken := some t }
        | none => .ok st2
    | none => .ok st1

/-- One pass of the outer date loop of lines 129 to 182, recursing
structurally on the number of days left so that concrete runs compute.
The loop guard current less or equal endDay is kept literally; gas is
always instantiated with exactly the day count of the range (see
outerLoop), so the zero-gas branch under a true guard is unreachable. -/
def outerGo (O : Oracle) (view_id : String) (mets dims : List String)
    (page_size : Nat) (database schema table ts : String) (fuel : Nat) :
    Nat → Nat → Nat → LoopState → Except RunError LoopState
  | 0, current, endDay, st =>
    if current ≤ endDay then .error .fuelExhausted else .ok st
  | gas2 + 1, current, endDay, st =>
    if current ≤ endDay then
      let current_start_date := formatDate (civilFromDays current)
      let current_end_date := formatDate (civilFromDays current)
      match innerLoop O view_id mets dims page_size current_start_date
          current_end_date database schema table ts fuel st with
      | .error e => .error e
      | .ok st2 =>
        outerGo O view_id mets dims page_size database schema table ts
          fuel gas2 (current + 1) endDay { st2 with days := st2.days + 1 }
    else .ok st

/-- The outer date loop, lines 129 to 182: while current is not past
endDay, format the day as both ends of the single-day range, run the
inner pagination loop for it, then move one day forward. The iteration
count of the while loop is exactly endDay + 1 - current, which outerGo
consumes structurally. -/
def outerLoop (O : Oracle) (view_id : String) (mets dims : List String)
    (page_size : Nat) (database schema table ts : String) (fuel : Nat)
    (current endDay : Nat) (st : LoopState) : Except RunError LoopState :=
  outerGo O view_id mets dims page_size database schema table ts fuel
    (endDay + 1 - current) current endDay st

/-- What a completed run produced: the returned value, the final counters,
the loop-phase event trace, and the one log append performed at the end. -/
structure RunOutput where
  returned : Nat
  total_rows : Nat
  api_calls_counter : Nat
  days : Nat
  trace : List Event
  logWrite : Event
deriving DecidableEq, Repr

/-- Lines 185 to 211, the run logger: build the single log entry, make a
dataframe of it, add LOADTIMESTAMP, cast it to timestamp through a column
reference spelled dataframe[LOADTIMESTAMP] in the source, which reads the
loop local dataframe and therefore raises UnboundLocalError when no page
ever had rows; then cast the two date columns with TO_DATE(YYYY-MM-DD)
(the names STARTDATE and ENDDATE resolve case-insensitively against the
created StartDate and EndDate columns), append the dataframe once to the
log destination and return total_rows. -/
def runLogger (st : LoopState) (start_date end_date : String)
    (table : String) (database_log schema_log table_log : String)
    (ts : String) : Except RunError RunOutput :=
  let logEntry : List CellValue :=
    [CellValue.str start_date, CellValue.str end_date,
     CellValue.int st.total_rows, CellValue.str table,
     CellValue.int st.api_calls_counter]
  let logSchema : List String :=
    ["StartDate", "EndDate", "RecordsSent", "TableName", "APICalls"]
  match createDataFrame [logEntry] logSchema with
  | none => .error .sqlError
  | some ldf =>
    let ldf1 := withColumnLit ldf "LOADTIMESTAMP" (CellValue.str ts)
    match st.dataframe with
    | none => .error .unboundLocal
    | some _ =>
      match withColumnMap ldf1 "LOADTIMESTAMP" castTimestampCell with
      | none => .error .sqlError
      | some ldf2 =>
        match withColumnMap ldf2 "STARTDATE" toDateDashedCell with
        | none => .error .sqlError
        | some ldf3 =>
          match withColumnMap ldf3 "ENDDATE" toDateDashedCell with
          | none => .error .sqlError
          | some ldf4 =>
            .ok { returned := st.total_rows,
                  total_rows := st.total_rows,
                  api_calls_counter := st.api_calls_counter,
                  days := st.days,
                  trace := st.trace,
                  logWrite := (dataframeToSnowflake ldf4 database_log
                    schema_log table_log).1 }

/-- getReportInSnowflake, lines 70 to 211. The page_token parameter is
unconditionally overwritten with None on line 120 before anything reads
it, so the run starts from initState (whose page token is unset) no matter
what was passed; the parameter occurs nowhere else. The ts parameter
stands for the current UTC timestamp string and fuel bounds the inner
pagination loops. -/
def getReportInSnowflake (O : Oracle) (view_id : String)
    (dimensions metrics : List String) (start_date end_date : String)
    (database schema table : String)
    (database_log schema_log table_log : String)
    (page_size : Nat) (page_token : Option String)
    (ts : String) (fuel : Nat) : Except RunError RunOutput :=
  let mets := metrics
  let dims := dimensions
  match parseDateDashed start_date, parseDateDashed end_date with
  | some s, some e =>
    match outerLoop O view_id mets dims page_size database schema table ts
        fuel (dayNumber s.1 s.2.1 s.2.2) (dayNumber e.1 e.2.1 e.2.2)
        initState with
    | .error err => .error err
    | .ok st =>
      runLogger st start_date end_date table database_log schema_log
        table_log ts
  | _, _ => .error .valueError

/-- Sum over the append events of a trace of the row count that
dataframeToSnowflake returned for that append. -/
def appendedRows : List Event → Nat
  | [] => 0
  | Event.append db sc tb df :: rest =>
    (dataframeToSnowflake df db sc tb).2 + appendedRows rest
  | Event.fetch _ :: rest => appendedRows rest

/-- Number of fetch events of a trace whose response carried row data. -/
def dataBearingFetches (O : Oracle) : List Event → Nat
  | [] => 0
  | Event.fetch req :: rest =>
    (if (O req).rows.isSome then 1 else 0) + dataBearingFetches O rest
  | Event.append _ _ _ _ :: rest => dataBearingFetches O rest

/-- Every cell present at column index i of the dataframe is a double. -/
def colAllDouble (df : DataFrame) (i : Nat) : Prop :=
  ∀ row ∈ df.data, ∀ c, row.get? i = some c → ∃ s, c = CellValue.double s

/-- Start date and page token of every fetch of a run, in order. -/
def fetchSummary (r : Except RunError RunOutput) :
    Except RunError (List (String × Option String)) :=
  r.map (fun o => o.trace.filterMap (fun e =>
    match e with
    | .fetch req => some (req.startDate, req.pageToken)
    | _ => none))

def emptyDf : DataFrame := { schema := [], data := [] }

def extractOk (r : Except RunError RunOutput) : RunOutput :=
  match r with
  | .ok o => o
  | .error _ =>
    { returned := 0, total_rows := 0, api_calls_counter := 0, days := 0,
      trace := [], logWrite := Event.fetch (mkRequest "" [] [] 0 "" "" none) }

def extractOkState (r : Except RunError LoopState) : LoopState :=
  match r with
  | .ok s => s
  | .error _ => initState

def extractDf (r : Option DataFrame) : DataFrame :=
  match r with
  | some d => d
  | none => emptyDf

/-- Concrete header: one dimension ga:date, one integer metric. -/
def hdrOne : ColumnHeader :=
  { dimensions := ["ga:date"],
    metricHeaderEntries := [{ name := "ga:sessions", type := "INTEGER" }] }

def rowOne : ReportRow :=
  { dimensions := ["20230501"], metrics := [{ values := ["5"] }] }

def rowTwo : ReportRow :=
  { dimensions := ["20230501"], metrics := [{ values := ["7"] }] }

/-- First page of the two page day: has rows and a next page token; the
remote service also reports a rowCount, which the code never reads. -/
def pageOne : Report :=
  { columnHeader := hdrOne, rows := some [rowOne], rowCount := some 2,
    nextPageToken := some "t1" }

/-- Second page of the two page day: rows, no further token. -/
def pageTwo : Report :=
  { columnHeader := hdrOne, rows := some [rowTwo], rowCount := some 2,
    nextPageToken := none }

/-- A response whose report data has no rows entry. -/
def pageEmpty : Report :=
  { columnHeader := hdrOne, rows := none, rowCount := none,
    nextPageToken := none }

/-- Remote service for a two day run: 2023-05-01 serves two pages (the
first carrying next page token t1), every other request has no rows. -/
def oracleTwoDay : Oracle := fun req =>
  if req.startDate = "2023-05-01" then
    (if req.pageToken = none then pageOne else pageTwo)
  else pageEmpty

/-- Remote service that never has data. -/
def oracleEmptyAll : Oracle := fun _ => pageEmpty

/-- The completed two day run used as concrete input by the witnesses. -/
def runTwoDay : Except RunError RunOutput :=
  getReportInSnowflake oracleTwoDay "v" ["ga:date"] ["ga:sessions"]
    "2023-05-01" "2023-05-02" "DB" "SC" "TB" "LDB" "LSC" "LTB"
    100000 none "2024-01-01 00:00:00" 10

def outTwoDay : RunOutput := extractOk runTwoDay

/-- Final loop state of the outer loop of the two day run. -/
def stTwoDay : LoopState :=
  extractOkState (outerLoop oracleTwoDay "v" ["ga:sessions"] ["ga:date"]
    100000 "DB" "SC" "TB" "2024-01-01 00:00:00" 10
    (dayNumber 2023 5 1) (dayNumber 2023 5 2) initState)

/-- The shaped dataframe of the first concrete page. -/
def dfShapeOne : DataFrame := extractDf (responseToDataframe pageOne)

/-- The shaped dataframe after the metric casts of the Type Normalizer. -/
def dfCastOne : DataFrame :=
  extractDf (castMetrics dfShapeOne
    ((pageOne.columnHeader.metricHeaderEntries.map
      (fun v => v.name)).eraseDups))

/-- The fully normalized dataframe of the first concrete page. -/
def dfNormOne : DataFrame :=
  extractDf (normalizePage pageOne "2024-01-01 00:00:00")

set_option maxHeartbeats 4000000 in
/-- Claim C1. The claim says the page token is reset to unset at the start
of each new outer-loop date, so that on a run spanning more than one day
the first fetch of each later day carries no token. The code only sets
page_token to None once, on line 120, before the outer loop; neither exit
of the inner loop clears it. On the concrete two day run whose first day
has two pages, the pagination token t1 taken from the first page is still
held when the second day starts, so the first fetch of 2023-05-02 is
issued with page token t1 instead of an unset one. -/
theorem c1_stale_token_across_days :
    fetchSummary runTwoDay =
      .ok [("2023-05-01", none), ("2023-05-01", some "t1"),
           ("2023-05-02", some "t1")] := by
  decide

/-- Claim C9. The claim says every run whose date range completes without
a component failure builds one log entry, appends it once and returns
total_rows. Line 202 reads the loop local variable dataframe, which is
only assigned inside the data-bearing branch of the inner loop; on a run
where no response had rows the whole date range completes, no component
fails, and the logger then raises UnboundLocalError instead of appending
the log entry and returning 0. -/
theorem c9_unbound_local_on_empty_run :
    getReportInSnowflake oracleEmptyAll "v" ["ga:date"] ["ga:sessions"]
      "2023-05-01" "2023-05-01" "DB" "SC" "TB" "LDB" "LSC" "LTB"
      100000 none "2024-01-01 00:00:00" 10 = .error .unboundLocal := by
  decide

/-- Claim C7. For a response with header metadata and rows, the Row Shaper
produces columns that are exactly the header dimension names followed by
the header metric names in header order, and one output row per report
row, holding the row dimension values followed by its metric values
flattened in order. The column set comes from the response header alone:
responseToDataframe has no caller-supplied dimension or metric inputs. -/
theorem c7_row_shaper_columns (resp : Report) (rws : List ReportRow)
    (df : DataFrame) (hr : resp.rows = some rws)
    (hd : responseToDataframe resp = some df) :
    df.schema = resp.columnHeader.dimensions
        ++ resp.columnHeader.metricHeaderEntries.map (fun e => e.name)
      ∧ df.data = rws.map (fun row =>
          (row.dimensions
            ++ (row.metrics.map (fun m => m.values)).flatten).map
            CellValue.str) := by
  simp only [responseToDataframe, hr, createDataFrame] at hd
  split at hd
  · simp only [Option.some.injEq] at hd
    subst hd
    exact ⟨rfl, rfl⟩
  · exact absurd hd (by simp)

lemma castDouble_is_double (c c2 : CellValue)
    (h : castDouble c = some c2) : ∃ s, c2 = CellValue.double s := by
  cases c <;> simp [castDouble] at h <;> exact ⟨_, h.symm⟩

lemma get_lt_of_get?_eq_some (row : List CellValue) (i : Nat)
    (c : CellValue) (h : row.get? i = some c) : i < row.length := by
  by_contra hn
  rw [List.get?_eq_none.mpr (by omega)] at h
  exact absurd h (by simp)

/-- After setCells with castDouble, every cell of the target column is a
double. -/
lemma setCells_target (i : Nat) :
    ∀ data data2 : List (List CellValue),
      setCells i castDouble data = some data2 →
      ∀ row2 ∈ data2, ∀ c, row2.get? i = some c →
        ∃ s, c = CellValue.double s := by
  intro data
  induction data with
  | nil =>
    intro data2 h
    simp only [setCells, Option.some.injEq] at h
    subst h
    simp
  | cons row rest ih =>
    intro data2 h row2 hmem c hget
    simp only [setCells] at h
    cases hg : row.get? i with
    | none => simp only [hg] at h; exact absurd h (by simp)
    | some c0 =>
      simp only [hg] at h
      cases hf : castDouble c0 with
      | none => simp only [hf] at h; exact absurd h (by simp)
      | some c1 =>
        simp only [hf] at h
        cases hs : setCells i castDouble rest with
        | none => simp only [hs] at h; exact absurd h (by simp)
        | some rs =>
          simp only [hs] at h
          simp only [Option.some.injEq] at h
          subst h
          rcases List.mem_cons.mp hmem with h1 | h1
          · subst h1
            rw [List.get?_set_eq_of_lt c1
              (get_lt_of_get?_eq_some row i c0 hg)] at hget
            simp only [Option.some.injEq] at hget
            subst hget
            exact castDouble_is_double c0 c1 hf
          · exact ih rs hs row2 h1 c hget

/-- After setCells with castDouble, every cell of every column is either
an original cell of that column or a double. -/
lemma setCells_origin (i : Nat) :
    ∀ data data2 : List (List CellValue),
      setCells i castDouble data = some data2 →
      ∀ row2 ∈ data2, ∀ j c, row2.get? j = some c →
        (∃ row, row ∈ data ∧ row.get? j = some c)
          ∨ ∃ s, c = CellValue.double s := by
  intro data
  induction data with
  | nil =>
    intro data2 h
    simp only [setCells, Option.some.injEq] at h
    subst h
    simp
  | cons row rest ih =>
    intro data2 h row2 hmem j c hget
    simp only [setCells] at h
    cases hg : row.get? i with
    | none => simp only [hg] at h; exact absurd h (by simp)
    | some c0 =>
      simp only [hg] at h
      cases hf : castDouble c0 with
      | none => simp only [hf] at h; exact absurd h (by simp)
      | some c1 =>
        simp only [hf] at h
        cases hs : setCells i castDouble rest with
        | none => simp only [hs] at h; exact absurd h (by simp)
        | some rs =>
          simp only [hs] at h
          simp only [Option.some.injEq] at h
          subst h
          rcases List.mem_cons.mp hmem with h1 | h1
          · subst h1
            by_cases hij : i = j
            · subst hij
              rw [List.get?_set_eq_of_lt c1
                (get_lt_of_get?_eq_some row i c0 hg)] at hget
              simp only [Option.some.injEq] at hget
              subst hget
              exact Or.inr (castDouble_is_double c0 c1 hf)
            · rw [List.get?_set_ne c1 row hij] at hget
              exact Or.inl ⟨row, List.mem_cons_self row rest, hget⟩
          · rcases ih rs hs row2 h1 j c hget with ⟨r, hr, hg2⟩ | hdb
            · exact Or.inl ⟨r, List.mem_cons_of_mem row hr, hg2⟩
            · exact Or.inr hdb

lemma withColumnMap_schema (df df2 : DataFrame) (name : String)
    (f : CellValue → Option CellValue)
    (h : withColumnMap df name f = some df2) : df2.schema = df.schema := by
  simp only [withColumnMap] at h
  cases hc : findCol df name with
  | none => simp only [hc] at h; exact absurd h (by simp)
  | some i =>
    simp only [hc] at h
    cases hs : setCells i f df.data with
    | none => simp only [hs] at h; exact absurd h (by simp)
    | some d =>
      simp only [hs] at h
      simp only [Option.some.injEq] at h
      subst h
      rfl

lemma withColumnMap_double_target (df df2 : DataFrame) (name : String)
    (h : withColumnMap df name castDouble = some df2) :
    ∃ i, findCol df name = some i ∧ colAllDouble df2 i := by
  simp only [withColumnMap] at h
  cases hc : findCol df name with
  | none => simp only [hc] at h; exact absurd h (by simp)
  | some i =>
    simp only [hc] at h
    cases hs : setCells i castDouble df.data with
    | none => simp only [hs] at h; exact absurd h (by simp)
    | some d =>
      simp only [hs] at h
      simp only [Option.some.injEq] at h
      subst h
      exact ⟨i, rfl, fun row2 hmem c hget =>
        setCells_target i df.data d hs row2 hmem c hget⟩

lemma withColumnMap_double_stable (df df2 : DataFrame) (name : String)
    (h : withColumnMap df name castDouble = some df2) (i : Nat)
    (hall : colAllDouble df i) : colAllDouble df2 i := by
  simp only [withColumnMap] at h
  cases hc : findCol df name with
  | none => simp only [hc] at h; exact absurd h (by simp)
  | some i0 =>
    simp only [hc] at h
    cases hs : setCells i0 castDouble df.data with
    | none => simp only [hs] at h; exact absurd h (by simp)
    | some d =>
      simp only [hs] at h
      simp only [Option.some.injEq] at h
      subst h
      intro row2 hmem c hget
      rcases setCells_origin i0 df.data d hs row2 hmem i c hget with
        ⟨r, hr, hg2⟩ | hdb
      · exact hall r hr c hg2
      · exact hdb

/-- Core of the Type Normalizer metric pass: after castMetrics, the column
each key resolves to holds only doubles, columns already all double stay
all double, and the schema is unchanged. -/
lemma castMetrics_spec :
    ∀ (keys : List String) (df df2 : DataFrame),
      castMetrics df keys = some df2 →
      df2.schema = df.schema
        ∧ (∀ i, colAllDouble df i → colAllDouble df2 i)
        ∧ ∀ k ∈ keys, ∃ i, findCol df2 k = some i ∧ colAllDouble df2 i := by
  intro keys
  induction keys with
  | nil =>
    intro df df2 h
    simp only [castMetrics, Option.some.injEq] at h
    subst h
    exact ⟨rfl, fun _ p => p, by simp⟩
  | cons k ks ih =>
    intro df df2 h
    simp only [castMetrics] at h
    cases hw : withColumnMap df k castDouble with
    | none => simp only [hw] at h; exact absurd h (by simp)
    | some dfm =>
      simp only [hw] at h
      obtain ⟨hsch, hstab, hkeys⟩ := ih dfm df2 h
      have hschm := withColumnMap_schema df dfm k castDouble hw
      refine ⟨hsch.trans hschm, ?_, ?_⟩
      · intro i hall
        exact hstab i (withColumnMap_double_stable df dfm k hw i hall)
      · intro k2 hk2
        rcases List.mem_cons.mp hk2 with h1 | h1
        · subst h1
          obtain ⟨i, hfind, hall⟩ := withColumnMap_double_target df dfm k2 hw
          refine ⟨i, ?_, hstab i hall⟩
          unfold findCol at hfind ⊢
          rw [hsch, hschm]
          exact hfind
        · exact hkeys k2 h1

/-- Claim C8. For a data-bearing page the Type Normalizer casts every
metric column named in the response header metric type map (the keys of
the dataTypes dict, which are the header metric names) to the Snowflake
double type regardless of its declared type, and the YYYYMMDD date parse
applied to the ga:date column turns the input 20230501 into the date
May 1, 2023. -/
theorem c8_metric_casts_and_date (resp : Report) (df df2 : DataFrame)
    (hcast : castMetrics df
      ((resp.columnHeader.metricHeaderEntries.map
        (fun v => v.name)).eraseDups) = some df2) :
    (∀ k ∈ (resp.columnHeader.metricHeaderEntries.map
        (fun v => v.name)).eraseDups,
      ∃ i, findCol df2 k = some i ∧ colAllDouble df2 i)
      ∧ toDateYYYYMMDD (CellValue.str "20230501") =
          some (CellValue.date 2023 5 1) :=
  ⟨(castMetrics_spec _ df df2 hcast).2.2, by decide⟩

lemma appendedRows_append (a b : List Event) :
    appendedRows (a ++ b) = appendedRows a + appendedRows b := by
  induction a with
  | nil => simp [appendedRows]
  | cons e rest ih => cases e <;> simp [appendedRows, ih] <;> omega

lemma dataBearingFetches_append (O : Oracle) (a b : List Event) :
    dataBearingFetches O (a ++ b) =
      dataBearingFetches O a + dataBearingFetches O b := by
  induction a with
  | nil => simp [dataBearingFetches]
  | cons e rest ih =>
    cases e <;> simp [dataBearingFetches, ih] <;> omega

/-- What one completed inner pagination loop adds to the state: only trace
entries; the day count is untouched, total_rows grows by exactly the
appended row counts of the new trace entries and api_calls_counter by
exactly the number of new data-bearing fetches. -/
lemma innerLoop_ok_spec (O : Oracle) (view_id : String)
    (mets dims : List String) (page_size : Nat) (sd ed : String)
    (db sc tb ts : String) :
    ∀ (fuel : Nat) (st st2 : LoopState),
      innerLoop O view_id mets dims page_size sd ed db sc tb ts fuel st
        = .ok st2 →
      ∃ tl, st2.trace = st.trace ++ tl
        ∧ st2.days = st.days
        ∧ st2.total_rows = st.total_rows + appendedRows tl
        ∧ st2.api_calls_counter
            = st.api_calls_counter + dataBearingFetches O tl := by
  intro fuel
  induction fuel with
  | zero => intro st st2 h; simp [innerLoop] at h
  | succ n ih =>
    intro st st2 h
    simp only [innerLoop] at h
    cases hr : (O (mkRequest view_id mets dims page_size sd ed
        st.pageToken)).rows with
    | none =>
      simp only [hr] at h
      simp only [Except.ok.injEq] at h
      subst h
      refine ⟨[Event.fetch (mkRequest view_id mets dims page_size sd ed
        st.pageToken)], rfl, rfl, ?_, ?_⟩
      · simp [appendedRows]
      · simp [dataBearingFetches, hr]
    | some rws =>
      simp only [hr] at h
      cases hn : normalizePage (O (mkRequest view_id mets dims page_size
          sd ed st.pageToken)) ts with
      | none => simp only [hn] at h; exact absurd h (by simp)
      | some df =>
        simp only [hn] at h
        cases ht : (O (mkRequest view_id mets dims page_size sd ed
            st.pageToken)).nextPageToken with
        | none =>
          simp only [ht] at h
          simp only [Except.ok.injEq] at h
          subst h
          refine ⟨[Event.fetch (mkRequest view_id mets dims page_size sd
              ed st.pageToken),
            Event.append db sc tb df], ?_, rfl, ?_, ?_⟩
          · simp [dataframeToSnowflake]
          · simp [appendedRows, dataframeToSnowflake]
          · simp [dataBearingFetches, hr]
        | some t =>
          simp only [ht] at h
          obtain ⟨tl2, htr, hd, htot, hapi⟩ := ih _ _ h
          refine ⟨[Event.fetch (mkRequest view_id mets dims page_size sd
              ed st.pageToken),
            Event.append db sc tb df] ++ tl2, ?_, ?_, ?_, ?_⟩
          · simp only [htr]
            simp [dataframeToSnowflake]
          · simpa using hd
          · simp only [htot]
            simp [appendedRows_append, appendedRows, dataframeToSnowflake]
            omega
          · simp only [hapi]
            simp [dataBearingFetches_append, dataBearingFetches, hr]
            omega

/-- What the outer date loop adds to the state when it completes: the day
counter grows by exactly the number of loop iterations, which is the day
count of the range, and the counters absorb the new trace entries the
same way the inner loop reports them. -/
lemma outerGo_ok_spec (O : Oracle) (view_id : String)
    (mets dims : List String) (page_size : Nat) (db sc tb ts : String)
    (fuel : Nat) :
    ∀ (gas current endDay : Nat) (st st2 : LoopState),
      endDay + 1 - current = gas →
      outerGo O view_id mets dims page_size db sc tb ts fuel gas current
        endDay st = .ok st2 →
      ∃ tl, st2.trace = st.trace ++ tl
        ∧ st2.days = st.days + (endDay + 1 - current)
        ∧ st2.total_rows = st.total_rows + appendedRows tl
        ∧ st2.api_calls_counter
            = st.api_calls_counter + dataBearingFetches O tl := by
  intro gas
  induction gas with
  | zero =>
    intro current endDay st st2 hg h
    rw [outerGo, if_neg (by omega)] at h
    simp only [Except.ok.injEq] at h
    subst h
    exact ⟨[], by simp, by omega, by simp [appendedRows],
      by simp [dataBearingFetches]⟩
  | succ gas2 ih =>
    intro current endDay st st2 hg h
    simp only [outerGo] at h
    rw [if_pos (by omega : current ≤ endDay)] at h
    cases hi : innerLoop O view_id mets dims page_size
        (formatDate (civilFromDays current))
        (formatDate (civilFromDays current)) db sc tb ts fuel st with
    | error e => rw [hi] at h; exact absurd h (by simp)
    | ok stm =>
      rw [hi] at h
      obtain ⟨tl2, htr2, hd2, htot2, hapi2⟩ :=
        ih (current + 1) endDay _ _ (by omega) h
      obtain ⟨tl1, htr1, hd1, htot1, hapi1⟩ :=
        innerLoop_ok_spec O view_id mets dims page_size _ _ db sc tb ts
          fuel st stm hi
      refine ⟨tl1 ++ tl2, ?_, ?_, ?_, ?_⟩
      · simp only [htr2]
        simp only [htr1]
        simp [List.append_assoc]
      · simp only [hd2]
        simp only [hd1] at *
        simp at hd2 ⊢
        omega
      · simp only [htot2, appendedRows_append]
        simp at htot2 ⊢
        omega
      · simp only [hapi2, dataBearingFetches_append]
        simp at hapi2 ⊢
        omega

/-- The run logger passes the loop counters and the loop trace through to
the run output unchanged; the returned value is total_rows. -/
lemma runLogger_ok_fields (st : LoopState) (start_date end_date : String)
    (table : String) (database_log schema_log table_log ts : String)
    (out : RunOutput)
    (h : runLogger st start_date end_date table database_log schema_log
      table_log ts = .ok out) :
    out.returned = st.total_rows ∧ out.total_rows = st.total_rows
      ∧ out.api_calls_counter = st.api_calls_counter
      ∧ out.days = st.days ∧ out.trace = st.trace := by
  simp only [runLogger] at h
  split at h
  · exact absurd h (by simp)
  · split at h
    · exact absurd h (by simp)
    · split at h
      · exact absurd h (by simp)
      · split at h
        · exact absurd h (by simp)
        · split at h
          · exact absurd h (by simp)
          · simp only [Except.ok.injEq] at h
            subst h
            exact ⟨rfl, rfl, rfl, rfl, rfl⟩

/-- A completed run splits into a completed outer loop followed by a
completed logger, after both date strings parsed. -/
lemma run_ok_split (O : Oracle) (view_id : String)
    (dimensions metrics : List String) (start_date end_date : String)
    (database schema table : String)
    (database_log schema_log table_log : String) (page_size : Nat)
    (page_token : Option String) (ts : String) (fuel : Nat)
    (out : RunOutput)
    (h : getReportInSnowflake O view_id dimensions metrics start_date
      end_date database schema table database_log schema_log table_log
      page_size page_token ts fuel = .ok out) :
    ∃ s e st, parseDateDashed start_date = some s
      ∧ parseDateDashed end_date = some e
      ∧ outerLoop O view_id metrics dimensions page_size database schema
          table ts fuel (dayNumber s.1 s.2.1 s.2.2)
          (dayNumber e.1 e.2.1 e.2.2) initState = .ok st
      ∧ runLogger st start_date end_date table database_log schema_log
          table_log ts = .ok out := by
  simp only [getReportInSnowflake] at h
  cases hs : parseDateDashed start_date with
  | none => simp only [hs] at h; exact absurd h (by simp)
  | some s =>
    cases he : parseDateDashed end_date with
    | none => simp only [hs, he] at h; exact absurd h (by simp)
    | some e =>
      simp only [hs, he] at h
      cases ho : outerLoop O view_id metrics dimensions page_size database
          schema table ts fuel (dayNumber s.1 s.2.1 s.2.2)
          (dayNumber e.1 e.2.1 e.2.2) initState with
      | error err => rw [ho] at h; exact absurd h (by simp)
      | ok st =>
        rw [ho] at h
        exact ⟨s, e, st, rfl, rfl, ho, h⟩

/-- Claim C2. For every completed run the returned total_rows equals the
sum over all appended pages, across all days, of the per page row count
that dataframeToSnowflake returned for that append; the row counts the
remote service reports in its responses play no part in the sum. -/
theorem c2_total_rows_is_appended_sum (O : Oracle) (view_id : String)
    (dimensions metrics : List String) (start_date end_date : String)
    (database schema table : String)
    (database_log schema_log table_log : String) (page_size : Nat)
    (page_token : Option String) (ts : String) (fuel : Nat)
    (out : RunOutput)
    (h : getReportInSnowflake O view_id dimensions metrics start_date
      end_date database schema table database_log schema_log table_log
      page_size page_token ts fuel = .ok out) :
    out.returned = appendedRows out.trace := by
  obtain ⟨s, e, st, _, _, ho, hl⟩ := run_ok_split O view_id dimensions
    metrics start_date end_date database schema table database_log
    schema_log table_log page_size page_token ts fuel out h
  obtain ⟨hret, _, _, _, htr⟩ := runLogger_ok_fields st start_date
    end_date table database_log schema_log table_log ts out hl
  obtain ⟨tl, htl, _, htot, _⟩ := outerGo_ok_spec O view_id metrics
    dimensions page_size database schema table ts fuel _ _ _ _ _ rfl ho
  rw [hret, htr, htot, htl]
  simp [initState, appendedRows]

/-- Claim C3. For every completed run api_calls_counter equals the number
of fetches whose response carried row data; fetches whose response had no
rows entry are not counted. -/
theorem c3_api_calls_counts_data_pages (O : Oracle) (view_id : String)
    (dimensions metrics : List String) (start_date end_date : String)
    (database schema table : String)
    (database_log schema_log table_log : String) (page_size : Nat)
    (page_token : Option String) (ts : String) (fuel : Nat)
    (out : RunOutput)
    (h : getReportInSnowflake O view_id dimensions metrics start_date
      end_date database schema table database_log schema_log table_log
      page_size page_token ts fuel = .ok out) :
    out.api_calls_counter = dataBearingFetches O out.trace := by
  obtain ⟨s, e, st, _, _, ho, hl⟩ := run_ok_split O view_id dimensions
    metrics start_date end_date database schema table database_log
    schema_log table_log page_size page_token ts fuel out h
  obtain ⟨_, _, hapi, _, htr⟩ := runLogger_ok_fields st start_date
    end_date table database_log schema_log table_log ts out hl
  obtain ⟨tl, htl, _, _, hcnt⟩ := outerGo_ok_spec O view_id metrics
    dimensions page_size database schema table ts fuel _ _ _ _ _ rfl ho
  rw [hapi, htr, hcnt, htl]
  simp [initState, dataBearingFetches]

/-- Claim C6. For a run over valid YYYY-MM-DD dates with start not after
end, the outer loop of getReportInSnowflake performs exactly one iteration
per calendar day from start to end inclusive: a completed outer loop has
day count endDay minus startDay plus one, and one day alone gives exactly
one iteration. The loop structure itself terminates for every input, its
iteration count being bounded by the day count of the range. -/
theorem c6_outer_loop_day_count (O : Oracle) (view_id : String)
    (mets dims : List String) (page_size : Nat)
    (database schema table ts : String) (fuel : Nat)
    (start_date end_date : String) (s e : Nat × Nat × Nat)
    (st : LoopState)
    (hs : parseDateDashed start_date = some s)
    (he : parseDateDashed end_date = some e)
    (hle : dayNumber s.1 s.2.1 s.2.2 ≤ dayNumber e.1 e.2.1 e.2.2)
    (h : outerLoop O view_id mets dims page_size database schema table ts
      fuel (dayNumber s.1 s.2.1 s.2.2) (dayNumber e.1 e.2.1 e.2.2)
      initState = .ok st) :
    st.days = dayNumber e.1 e.2.1 e.2.2 - dayNumber s.1 s.2.1 s.2.2 + 1 := by
  obtain ⟨tl, _, hd, _, _⟩ := outerGo_ok_spec O view_id mets dims
    page_size database schema table ts fuel _ _ _ _ _ rfl h
  rw [hd]
  simp [initState]
  omega

/-- One completed inner loop turns one guarded pass of the outer while
loop into the same loop started at the next day. -/
lemma outerLoop_step (O : Oracle) (view_id : String)
    (mets dims : List String) (page_size : Nat)
    (database schema table ts : String) (fuel current endDay : Nat)
    (st stm : LoopState) (hle : current ≤ endDay)
    (hi : innerLoop O view_id mets dims page_size
      (formatDate (civilFromDays current))
      (formatDate (civilFromDays current)) database schema table ts fuel
      st = .ok stm) :
    outerLoop O view_id mets dims page_size database schema table ts fuel
        current endDay st =
      outerLoop O view_id mets dims page_size database schema table ts
        fuel (current + 1) endDay { stm with days := stm.days + 1 } := by
  simp only [outerLoop]
  rw [show endDay + 1 - current = (endDay - current) + 1 by omega,
    show endDay + 1 - (current + 1) = endDay - current by omega]
  conv_lhs => rw [outerGo]
  rw [if_pos hle]
  simp only [hi]

/-- Claim C4. A fetched response whose report data has no rows entry makes
the driver skip the Shaper, the Normalizer and the Appender for that
response, leave total_rows, api_calls_counter, the bound dataframe and
even the page token untouched, and advance the outer loop to the next
day: one guarded pass of the outer loop equals the same loop restarted at
the next day with only the fetch event added to the state. -/
theorem c4_empty_page_advances_day (O : Oracle) (view_id : String)
    (mets dims : List String) (page_size : Nat)
    (database schema table ts : String) (fuel current endDay : Nat)
    (st : LoopState) (hle : current ≤ endDay)
    (h : (O (mkRequest view_id mets dims page_size
      (formatDate (civilFromDays current))
      (formatDate (civilFromDays current)) st.pageToken)).rows = none) :
    outerLoop O view_id mets dims page_size database schema table ts
        (fuel + 1) current endDay st =
      outerLoop O view_id mets dims page_size database schema table ts
        (fuel + 1) (current + 1) endDay
        { st with
          days := st.days + 1
          trace := st.trace ++ [Event.fetch (mkRequest view_id mets dims
            page_size (formatDate (civilFromDays current))
            (formatDate (civilFromDays current)) st.pageToken)] } := by
  have hstep : innerLoop O view_id mets dims page_size
      (formatDate (civilFromDays current))
      (formatDate (civilFromDays current)) database schema table ts
      (fuel + 1) st =
      .ok { st with trace := st.trace ++ [Event.fetch (mkRequest view_id
        mets dims page_size (formatDate (civilFromDays current))
        (formatDate (civilFromDays current)) st.pageToken)] } := by
    simp only [innerLoop, h]
  exact outerLoop_step O view_id mets dims page_size database schema table
    ts (fuel + 1) current endDay st _ hle hstep

/-- A completing inner loop run with at least one pass starts with the
fetch for the current page token. -/
lemma innerLoop_ok_first (O : Oracle) (view_id : String)
    (mets dims : List String) (page_size : Nat) (sd ed : String)
    (db sc tb ts : String) (g : Nat) (st res : LoopState)
    (h : innerLoop O view_id mets dims page_size sd ed db sc tb ts (g + 1)
      st = .ok res) :
    ∃ tl, res.trace = st.trace ++ [Event.fetch (mkRequest view_id mets
      dims page_size sd ed st.pageToken)] ++ tl := by
  simp only [innerLoop] at h
  cases hr : (O (mkRequest view_id mets dims page_size sd ed
      st.pageToken)).rows with
  | none =>
    simp only [hr] at h
    simp only [Except.ok.injEq] at h
    subst h
    exact ⟨[], by simp⟩
  | some rws =>
    simp only [hr] at h
    cases hn : normalizePage (O (mkRequest view_id mets dims page_size
        sd ed st.pageToken)) ts with
    | none => simp only [hn] at h; exact absurd h (by simp)
    | some df =>
      simp only [hn] at h
      cases ht : (O (mkRequest view_id mets dims page_size sd ed
          st.pageToken)).nextPageToken with
      | none =>
        simp only [ht] at h
        simp only [Except.ok.injEq] at h
        subst h
        exact ⟨[Event.append db sc tb df], by simp [dataframeToSnowflake]⟩
      | some t =>
        simp only [ht] at h
        obtain ⟨tl2, htr, _, _, _⟩ := innerLoop_ok_spec O view_id mets
          dims page_size sd ed db sc tb ts g _ _ h
        refine ⟨[Event.append db sc tb df] ++ tl2, ?_⟩
        simp only [htr]
        simp [dataframeToSnowflake, List.append_assoc]

/-- Claim C5. When a fetched response carries row data and a next page
token, the driver keeps paginating the same day before the outer loop can
advance: the inner loop continues from a state holding exactly that token
as page token, and the next fetch it issues (should it complete) is for
the same start and end date with that token. -/
theorem c5_next_page_same_day_with_token (O : Oracle) (view_id : String)
    (mets dims : List String) (page_size : Nat) (sd ed : String)
    (db sc tb ts : String) (fuel : Nat) (st : LoopState)
    (rws : List ReportRow) (df : DataFrame) (t : String)
    (hrows : (O (mkRequest view_id mets dims page_size sd ed
      st.pageToken)).rows = some rws)
    (hnorm : normalizePage (O (mkRequest view_id mets dims page_size sd ed
      st.pageToken)) ts = some df)
    (htok : (O (mkRequest view_id mets dims page_size sd ed
      st.pageToken)).nextPageToken = some t) :
    ∃ st2, innerLoop O view_id mets dims page_size sd ed db sc tb ts
        (fuel + 1) st
        = innerLoop O view_id mets dims page_size sd ed db sc tb ts fuel
          st2
      ∧ st2.pageToken = some t
      ∧ st2.trace = st.trace ++ [Event.fetch (mkRequest view_id mets dims
          page_size sd ed st.pageToken), Event.append db sc tb df]
      ∧ ∀ g res, innerLoop O view_id mets dims page_size sd ed db sc tb ts
          (g + 1) st2 = .ok res →
          ∃ tl, res.trace = st2.trace ++ [Event.fetch (mkRequest view_id
            mets dims page_size sd ed (some t))] ++ tl := by
  let st2 : LoopState :=
    { pageToken := some t, total_rows := st.total_rows
        + (dataframeToSnowflake df db sc tb).2,
      api_calls_counter := st.api_calls_counter + 1, dataframe := some df,
      days := st.days, trace := st.trace ++ [Event.fetch (mkRequest
        view_id mets dims page_size sd ed st.pageToken),
        Event.append db sc tb df] }
  refine ⟨st2, ?_, rfl, rfl, ?_⟩
  · simp only [innerLoop, hrows, hnorm, htok, dataframeToSnowflake]
    congr 1
    simp [st2, dataframeToSnowflake, List.append_assoc]
  · intro g res hres
    have hfirst := innerLoop_ok_first O view_id mets dims page_size sd ed
      db sc tb ts g _ res hres
    simpa using hfirst

/-- Claim C10. The result of getReportInSnowflake, including the whole
fetch and append trace and the returned total, does not depend on the
page_token argument: line 120 overwrites it with None before any fetch,
so two calls differing only in that argument are the same call. -/
theorem c10_page_token_argument_ignored (O : Oracle) (view_id : String)
    (dimensions metrics : List String) (start_date end_date : String)
    (database schema table : String)
    (database_log schema_log table_log : String)
    (page_size : Nat) (t1 t2 : Option String) (ts : String) (fuel : Nat) :
    getReportInSnowflake O view_id dimensions metrics start_date end_date
      database schema table database_log schema_log table_log
      page_size t1 ts fuel =
    getReportInSnowflake O view_id dimensions metrics start_date end_date
      database schema table database_log schema_log table_log
      page_size t2 ts fuel := by
  rfl

/-- Witness for C2 at the concrete two day run. -/
theorem c2_total_rows_witness :
    outTwoDay.returned = appendedRows outTwoDay.trace :=
  c2_total_rows_is_appended_sum oracleTwoDay "v" ["ga:date"]
    ["ga:sessions"] "2023-05-01" "2023-05-02" "DB" "SC" "TB" "LDB" "LSC"
    "LTB" 100000 none "2024-01-01 00:00:00" 10 outTwoDay (by decide)

/-- Witness for C3 at the concrete two day run. -/
theorem c3_api_calls_witness :
    outTwoDay.api_calls_counter =
      dataBearingFetches oracleTwoDay outTwoDay.trace :=
  c3_api_calls_counts_data_pages oracleTwoDay "v" ["ga:date"]
    ["ga:sessions"] "2023-05-01" "2023-05-02" "DB" "SC" "TB" "LDB" "LSC"
    "LTB" 100000 none "2024-01-01 00:00:00" 10 outTwoDay (by decide)

/-- Witness for C4: on 2023-05-03 the concrete service has no rows, and
one guarded outer pass equals the restart at the next day with only the
fetch recorded. -/
theorem c4_empty_page_witness :
    outerLoop oracleTwoDay "v" ["ga:sessions"] ["ga:date"] 100000 "DB"
        "SC" "TB" "2024-01-01 00:00:00" (9 + 1) 738948 738948 initState =
      outerLoop oracleTwoDay "v" ["ga:sessions"] ["ga:date"] 100000 "DB"
        "SC" "TB" "2024-01-01 00:00:00" (9 + 1) (738948 + 1) 738948
        { initState with
          days := initState.days + 1
          trace := initState.trace ++ [Event.fetch (mkRequest "v"
            ["ga:sessions"] ["ga:date"] 100000
            (formatDate (civilFromDays 738948))
            (formatDate (civilFromDays 738948)) initState.pageToken)] } :=
  c4_empty_page_advances_day oracleTwoDay "v" ["ga:sessions"] ["ga:date"]
    100000 "DB" "SC" "TB" "2024-01-01 00:00:00" 9 738948 738948 initState
    (by decide) (by decide)

/-- Witness for C5 at the first concrete page, whose response has rows and
next page token t1. -/
theorem c5_next_page_witness :
    ∃ st2, innerLoop oracleTwoDay "v" ["ga:sessions"] ["ga:date"] 100000
        "2023-05-01" "2023-05-01" "DB" "SC" "TB" "2024-01-01 00:00:00"
        (4 + 1) initState
        = innerLoop oracleTwoDay "v" ["ga:sessions"] ["ga:date"] 100000
          "2023-05-01" "2023-05-01" "DB" "SC" "TB" "2024-01-01 00:00:00" 4
          st2
      ∧ st2.pageToken = some "t1"
      ∧ st2.trace = initState.trace ++ [Event.fetch (mkRequest "v"
          ["ga:sessions"] ["ga:date"] 100000 "2023-05-01" "2023-05-01"
          initState.pageToken), Event.append "DB" "SC" "TB" dfNormOne]
      ∧ ∀ g res, innerLoop oracleTwoDay "v" ["ga:sessions"] ["ga:date"]
          100000 "2023-05-01" "2023-05-01" "DB" "SC" "TB"
          "2024-01-01 00:00:00" (g + 1) st2 = .ok res →
          ∃ tl, res.trace = st2.trace ++ [Event.fetch (mkRequest "v"
            ["ga:sessions"] ["ga:date"] 100000 "2023-05-01" "2023-05-01"
            (some "t1"))] ++ tl :=
  c5_next_page_same_day_with_token oracleTwoDay "v" ["ga:sessions"]
    ["ga:date"] 100000 "2023-05-01" "2023-05-01" "DB" "SC" "TB"
    "2024-01-01 00:00:00" 4 initState [rowOne] dfNormOne "t1" (by decide)
    (by decide) (by decide)

/-- Witness for C6 at the concrete two day run: two outer iterations. -/
theorem c6_day_count_witness :
    stTwoDay.days = dayNumber 2023 5 2 - dayNumber 2023 5 1 + 1 :=
  c6_outer_loop_day_count oracleTwoDay "v" ["ga:sessions"] ["ga:date"]
    100000 "DB" "SC" "TB" "2024-01-01 00:00:00" 10 "2023-05-01"
    "2023-05-02" (2023, 5, 1) (2023, 5, 2) stTwoDay (by decide)
    (by decide) (by decide) (by decide)

/-- Witness for C7 at the first concrete page. -/
theorem c7_row_shaper_witness :
    dfShapeOne.schema = pageOne.columnHeader.dimensions
        ++ pageOne.columnHeader.metricHeaderEntries.map (fun e => e.name)
      ∧ dfShapeOne.data = [rowOne].map (fun row =>
          (row.dimensions
            ++ (row.metrics.map (fun m => m.values)).flatten).map
            CellValue.str) :=
  c7_row_shaper_columns pageOne [rowOne] dfShapeOne (by decide) (by decide)

/-- Witness for C8 at the first concrete page. -/
theorem c8_metric_casts_witness :
    (∀ k ∈ (pageOne.columnHeader.metricHeaderEntries.map
        (fun v => v.name)).eraseDups,
      ∃ i, findCol dfCastOne k = some i ∧ colAllDouble dfCastOne i)
      ∧ toDateYYYYMMDD (CellValue.str "20230501") =
          some (CellValue.date 2023 5 1) :=
  c8_metric_casts_and_date pageOne dfShapeOne dfCastOne (by decide)

end UA
